import Mathlib

/-! Shallow embedding of the Grafana dashboard validator
(`pkg/dashboard` package, Go) and proofs about it.

Go machine integers (`int`) only ever flow through equality tests and
sign comparisons here, so they are modelled by `Int`; `interface{}`
fields that hold a JSON number-or-null are modelled by `Option Int`,
and the string-or-bool `refresh` field by `Option String`.  Go maps
used only as seen-sets are modelled by lists with membership tests;
`map[string]string` passed to the template substitution is modelled as
an association list (its iteration order is only observable when it
has at least two entries, which no claim exercises).
-/

/-- Go `Target` struct: a query target of a panel. -/
structure Target where
  expr : String
  refId : String
  intervalFactor : Int
  step : Int
deriving DecidableEq, Repr

/-- Go `GridPos` struct: panel position and size. -/
structure GridPos where
  h : Int
  w : Int
  x : Int
  y : Int
deriving DecidableEq, Repr

/-- Go `FieldDefaults` struct: default field settings (unused by validation). -/
structure FieldDefaults where
  unit : String
  displayName : String
  custom : List (String × String)
deriving DecidableEq, Repr

/-- Go `FieldConfig` struct (unused by validation). -/
structure FieldConfig where
  defaults : FieldDefaults
deriving DecidableEq, Repr

/-- Go `Panel` struct: a dashboard panel. -/
structure Panel where
  id : Int
  title : String
  type : String
  targets : List Target
  gridPos : GridPos
  fieldConfig : FieldConfig
deriving DecidableEq, Repr

/-- Go `TimeRange` struct: dashboard time range (unused by validation). -/
structure TimeRange where
  from_ : String
  to_ : String
deriving DecidableEq, Repr

/-- Go `TemplateVariable` struct: a template variable. -/
structure TemplateVariable where
  name : String
  type : String
  label : String
  query : String
  refresh : Int
deriving DecidableEq, Repr

/-- Go `Templating` struct: dashboard templating section. -/
structure Templating where
  list : List TemplateVariable
deriving DecidableEq, Repr

/-- Go `Dashboard` struct: the decoded dashboard document. -/
structure Dashboard where
  id : Option Int
  title : String
  description : String
  tags : List String
  timezone : String
  panels : List Panel
  time : TimeRange
  templating : Templating
  refresh : Option String
  schemaVersion : Int
  version : Option Int
  uid : String
deriving DecidableEq, Repr

/-- Go `ValidationError` struct: a field path and a message. -/
structure ValidationError where
  field : String
  message : String
deriving DecidableEq, Repr

/-- Go `ValidationError.Error()`: renders the error as `field: message`. -/
def errorString (e : ValidationError) : String :=
  e.field ++ (": " ++ e.message)

/-- Go `isQueryPanel`: membership of the panel type in the literal map of
query-panel types (lookup in a Go map literal of nine keys, default
`false`). -/
def isQueryPanel (panelType : String) : Bool :=
  panelType = "timeseries" || panelType = "stat" || panelType = "gauge" ||
  panelType = "bargauge" || panelType = "table" || panelType = "heatmap" ||
  panelType = "piechart" || panelType = "graph" || panelType = "singlestat"

/-- Inner loop of `ValidateDashboard` over `panel.Targets` (index `j`),
for the panel at index `i`: flags every target with an empty `RefID`. -/
def targetLoop (i : Nat) : List Target → Nat → List ValidationError
  | [], _ => []
  | t :: rest, j =>
    (if t.refId = "" then
      [⟨"panels[" ++ (toString i ++ ("].targets[" ++ (toString j ++ "].refId"))),
        "target refId is required"⟩]
    else [])
    ++ targetLoop i rest (j + 1)

/-- Loop of `ValidateDashboard` over `dashboard.Panels` (index `i`),
carrying the `panelIDs` seen-set (a `map[int]bool` in Go, a list with
membership here). -/
def panelLoop : List Panel → Nat → List Int → List ValidationError
  | [], _, _ => []
  | p :: rest, i, seen =>
    (if p.id ∈ seen then
      [⟨"panels[" ++ (toString i ++ "].id"),
        "duplicate panel ID: " ++ toString p.id⟩]
    else [])
    ++ (if p.type = "" then
      [⟨"panels[" ++ (toString i ++ "].type"), "panel type is required"⟩]
    else [])
    ++ (if p.gridPos.w ≤ 0 ∨ p.gridPos.h ≤ 0 then
      [⟨"panels[" ++ (toString i ++ "].gridPos"),
        "panel width and height must be positive"⟩]
    else [])
    ++ (if isQueryPanel p.type = true ∧ p.targets = [] then
      [⟨"panels[" ++ (toString i ++ "].targets"),
        "query panels must have at least one target"⟩]
    else [])
    ++ targetLoop i p.targets 0
    ++ panelLoop rest (i + 1) (p.id :: seen)

/-- Loop of `ValidateDashboard` over `dashboard.Templating.List`
(index `i`), carrying the `varNames` seen-set. -/
def varLoop : List TemplateVariable → Nat → List String → List ValidationError
  | [], _, _ => []
  | v :: rest, i, seen =>
    (if v.name = "" then
      [⟨"templating.list[" ++ (toString i ++ "].name"),
        "variable name is required"⟩]
    else [])
    ++ (if v.name ∈ seen then
      [⟨"templating.list[" ++ (toString i ++ "].name"),
        "duplicate variable name: " ++ v.name⟩]
    else [])
    ++ (if v.type = "" then
      [⟨"templating.list[" ++ (toString i ++ "].type"),
        "variable type is required"⟩]
    else [])
    ++ varLoop rest (i + 1) (v.name :: seen)

/-- The ordered error accumulator built by `ValidateDashboard`:
title, schema version and panel-count checks, then the panel loop,
then the template-variable loop. -/
def collectErrors (d : Dashboard) : List ValidationError :=
  (if d.title = "" then [⟨"title", "title is required"⟩] else [])
  ++ (if d.schemaVersion = 0 then
      [⟨"schemaVersion", "schemaVersion is required"⟩] else [])
  ++ (if d.panels.length = 0 then
      [⟨"panels", "at least one panel is required"⟩] else [])
  ++ panelLoop d.panels 0 []
  ++ varLoop d.templating.list 0 []

/-- Go `ValidateDashboard`: `none` models the Go `nil` return; `some msg`
models the single combined error built with
`fmt.Errorf("validation failed: %s", strings.Join(messages, "; "))`. -/
def ValidateDashboard (d : Dashboard) : Option String :=
  let errs := collectErrors d
  if errs.length > 0 then
    some ("validation failed: " ++ String.intercalate ("; ") (errs.map errorString))
  else
    none

/-- The seven entries of the `map[string]interface{}` returned by
`GetDashboardMetadata`, as a record keyed by the map's fixed keys. -/
structure DashboardMetadata where
  title : String
  description : String
  uid : String
  tags : List String
  panelsCount : Nat
  schemaVersion : Int
  hasTemplating : Bool
deriving DecidableEq, Repr

/-- Go `GetDashboardMetadata`: read-only projection of a dashboard. -/
def GetDashboardMetadata (d : Dashboard) : DashboardMetadata :=
  { title := d.title
    description := d.description
    uid := d.uid
    tags := d.tags
    panelsCount := d.panels.length
    schemaVersion := d.schemaVersion
    hasTemplating := decide (0 < d.templating.list.length) }

/-- Character-list version of `strings.HasPrefix`. -/
def charsStartsWith : List Char → List Char → Bool
  | _, [] => true
  | [], _ :: _ => false
  | c :: cs, p :: ps => c = p && charsStartsWith cs ps

/-- One pass of `strings.ReplaceAll` over a character list, with fuel;
`fuel = s.length` is enough when the pattern is non-empty, because each
step consumes at least one character of `s`. -/
def replaceLoop : Nat → List Char → List Char → List Char → List Char
  | _, [], _, _ => []
  | 0, s, _, _ => s
  | fuel + 1, c :: cs, pat, rep =>
    if charsStartsWith (c :: cs) pat then
      rep ++ replaceLoop fuel ((c :: cs).drop pat.length) pat rep
    else
      c :: replaceLoop fuel cs pat rep

/-- Go `strings.ReplaceAll` for non-empty patterns (every pattern built by
`ProcessTemplateVariables` contains at least the `$` sign, so the
empty-pattern case of the Go function is unreachable here). -/
def stringReplaceAll (s pat rep : String) : String :=
  if pat.data = [] then s
  else ⟨replaceLoop s.data.length s.data pat.data rep.data⟩

/-- Go `ProcessTemplateVariables`: for each mapping entry, replaces the
`${NAME}` form and then the bare `$NAME` form by the replacement. -/
def ProcessTemplateVariables (content : String)
    (replacements : List (String × String)) : String :=
  replacements.foldl
    (fun result vr =>
      stringReplaceAll
        (stringReplaceAll result ("$\x7b" ++ (vr.1 ++ "\x7d")) vr.2)
        ("$" ++ vr.1) vr.2)
    content

/-! Section: String-prefix toolkit -/

lemma csw_nil_pat : ∀ s : List Char, charsStartsWith s [] = true := by
  intro s; cases s <;> rfl

lemma csw_refl : ∀ l : List Char, charsStartsWith l l = true := by
  intro l
  induction l with
  | nil => rfl
  | cons c cs ih => simp [charsStartsWith, ih]

lemma csw_append_true : ∀ (pat a r : List Char),
    charsStartsWith a pat = true → charsStartsWith (a ++ r) pat = true := by
  intro pat
  induction pat with
  | nil => intro a r _; exact csw_nil_pat _
  | cons p ps ih =>
    intro a r h
    cases a with
    | nil => simp [charsStartsWith] at h
    | cons c cs =>
      simp [charsStartsWith] at h ⊢
      exact ⟨h.1, ih cs r h.2⟩

lemma csw_append_false : ∀ (pat a r : List Char), pat.length ≤ a.length →
    charsStartsWith a pat = false → charsStartsWith (a ++ r) pat = false := by
  intro pat
  induction pat with
  | nil => intro a r _ h; simp [charsStartsWith] at h
  | cons p ps ih =>
    intro a r hlen h
    cases a with
    | nil => simp at hlen
    | cons c cs =>
      simp [charsStartsWith] at h ⊢
      intro hcp
      exact ih cs r (by simpa using hlen) (h hcp)

/-- If `b` does not start with `a`, then no extension of `a` equals `b`. -/
lemma append_ne_of_not_csw (a s b : String)
    (h : charsStartsWith b.data a.data = false) : a ++ s ≠ b := by
  intro he
  have hd : a.data ++ s.data = b.data := by
    rw [← String.data_append, he]
  have ht : charsStartsWith (a.data ++ s.data) a.data = true :=
    csw_append_true _ _ _ (csw_refl a.data)
  rw [hd, h] at ht
  cases ht

/-! Section: Error-classification predicates -/

/-- Recognizes the duplicate-panel-id errors by their message head. -/
def isDupPanelMsg (e : ValidationError) : Bool :=
  charsStartsWith e.message.data (("duplicate panel ID:").data)

/-- Recognizes the combined grid-size error by its (fixed) message. -/
def isGridSizeMsg (e : ValidationError) : Bool :=
  decide (e.message = "panel width and height must be positive")

/-- Recognizes the missing-targets error by its (fixed) message. -/
def isTargetsMissingMsg (e : ValidationError) : Bool :=
  decide (e.message = "query panels must have at least one target")

/-- Recognizes errors whose field path is exactly `title`. -/
def isTitleField (e : ValidationError) : Bool :=
  decide (e.field = "title")

@[simp] lemma isDupPanelMsg_dup (f s : String) :
    isDupPanelMsg ⟨f, "duplicate panel ID: " ++ s⟩ = true := by
  unfold isDupPanelMsg
  rw [String.data_append]
  exact csw_append_true _ _ _ (by decide)

@[simp] lemma isDupPanelMsg_vardup (f s : String) :
    isDupPanelMsg ⟨f, "duplicate variable name: " ++ s⟩ = false := by
  unfold isDupPanelMsg
  rw [String.data_append]
  exact csw_append_false _ _ _ (by decide) (by decide)

@[simp] lemma isDupPanelMsg_type (f : String) :
    isDupPanelMsg ⟨f, "panel type is required"⟩ = false := rfl

@[simp] lemma isDupPanelMsg_grid (f : String) :
    isDupPanelMsg ⟨f, "panel width and height must be positive"⟩ = false := rfl

@[simp] lemma isDupPanelMsg_targets (f : String) :
    isDupPanelMsg ⟨f, "query panels must have at least one target"⟩ = false := rfl

@[simp] lemma isDupPanelMsg_refId (f : String) :
    isDupPanelMsg ⟨f, "target refId is required"⟩ = false := rfl

@[simp] lemma isDupPanelMsg_title (f : String) :
    isDupPanelMsg ⟨f, "title is required"⟩ = false := rfl

@[simp] lemma isDupPanelMsg_schema (f : String) :
    isDupPanelMsg ⟨f, "schemaVersion is required"⟩ = false := rfl

@[simp] lemma isDupPanelMsg_panels (f : String) :
    isDupPanelMsg ⟨f, "at least one panel is required"⟩ = false := rfl

@[simp] lemma isDupPanelMsg_varname (f : String) :
    isDupPanelMsg ⟨f, "variable name is required"⟩ = false := rfl

@[simp] lemma isDupPanelMsg_vartype (f : String) :
    isDupPanelMsg ⟨f, "variable type is required"⟩ = false := rfl

@[simp] lemma isGridSizeMsg_dup (f s : String) :
    isGridSizeMsg ⟨f, "duplicate panel ID: " ++ s⟩ = false :=
  decide_eq_false (append_ne_of_not_csw _ s _ (by decide))

@[simp] lemma isGridSizeMsg_vardup (f s : String) :
    isGridSizeMsg ⟨f, "duplicate variable name: " ++ s⟩ = false :=
  decide_eq_false (append_ne_of_not_csw _ s _ (by decide))

@[simp] lemma isGridSizeMsg_grid (f : String) :
    isGridSizeMsg ⟨f, "panel width and height must be positive"⟩ = true := rfl

@[simp] lemma isGridSizeMsg_type (f : String) :
    isGridSizeMsg ⟨f, "panel type is required"⟩ = false := rfl

@[simp] lemma isGridSizeMsg_targets (f : String) :
    isGridSizeMsg ⟨f, "query panels must have at least one target"⟩ = false := rfl

@[simp] lemma isGridSizeMsg_refId (f : String) :
    isGridSizeMsg ⟨f, "target refId is required"⟩ = false := rfl

@[simp] lemma isGridSizeMsg_title (f : String) :
    isGridSizeMsg ⟨f, "title is required"⟩ = false := rfl

@[simp] lemma isGridSizeMsg_schema (f : String) :
    isGridSizeMsg ⟨f, "schemaVersion is required"⟩ = false := rfl

@[simp] lemma isGridSizeMsg_panels (f : String) :
    isGridSizeMsg ⟨f, "at least one panel is required"⟩ = false := rfl

@[simp] lemma isGridSizeMsg_varname (f : String) :
    isGridSizeMsg ⟨f, "variable name is required"⟩ = false := rfl

@[simp] lemma isGridSizeMsg_vartype (f : String) :
    isGridSizeMsg ⟨f, "variable type is required"⟩ = false := rfl

@[simp] lemma isTitleField_panels_idx (s : String) (m : String) :
    isTitleField ⟨"panels[" ++ s, m⟩ = false :=
  decide_eq_false (append_ne_of_not_csw _ s _ (by decide))

@[simp] lemma isTitleField_templating (s : String) (m : String) :
    isTitleField ⟨"templating.list[" ++ s, m⟩ = false :=
  decide_eq_false (append_ne_of_not_csw _ s _ (by decide))

@[simp] lemma isTitleField_title (m : String) :
    isTitleField ⟨"title", m⟩ = true := rfl

@[simp] lemma isTitleField_schema (m : String) :
    isTitleField ⟨"schemaVersion", m⟩ = false := rfl

@[simp] lemma isTitleField_panels (m : String) :
    isTitleField ⟨"panels", m⟩ = false := rfl

/-! Section: Concrete dashboards used in scenarios and witnesses -/

def emptyFieldConfig : FieldConfig := ⟨⟨"", "", []⟩⟩

def defaultTime : TimeRange := ⟨"now-6h", "now"⟩

/-- A dashboard with the given title, schema version, panels and
template variables, and fixed unrelated fields. -/
def simpleDashboard (title : String) (schema : Int) (panels : List Panel)
    (vars : List TemplateVariable) : Dashboard :=
  { id := some 1, title := title, description := "desc", tags := ["obs"]
    timezone := "utc", panels := panels, time := defaultTime
    templating := ⟨vars⟩, refresh := some ("30s"), schemaVersion := schema
    version := some 1, uid := "uid-1" }

def validPanel : Panel :=
  ⟨1, "Panel", "timeseries", [⟨"up", "A", 1, 1⟩], ⟨8, 12, 0, 0⟩, emptyFieldConfig⟩

def dashValid : Dashboard :=
  simpleDashboard ("CPU Usage") 1 [validPanel] [⟨"namespace", "query", "", "", 0⟩]

/-- Satisfies every hypothesis of claim C1 as stated, yet fails
validation: its only template variable has an empty type. -/
def dashVarTypeMissing : Dashboard :=
  simpleDashboard ("CPU Usage") 1
    [⟨1, "p", "text", [], ⟨8, 12, 0, 0⟩, emptyFieldConfig⟩]
    [⟨"namespace", "", "", "", 0⟩]

def dashNoTitle : Dashboard :=
  simpleDashboard ("") 0 [] []

def dashTsNoTargets : Dashboard :=
  simpleDashboard ("T") 1 [⟨1, "p", "timeseries", [], ⟨8, 12, 0, 0⟩, emptyFieldConfig⟩] []

def dashTableCapNoTargets : Dashboard :=
  simpleDashboard ("T") 1 [⟨1, "p", "Table", [], ⟨8, 12, 0, 0⟩, emptyFieldConfig⟩] []

def dashTextNoTargets : Dashboard :=
  simpleDashboard ("T") 1 [⟨1, "p", "text", [], ⟨8, 12, 0, 0⟩, emptyFieldConfig⟩] []

def dashTwoEmptyNames : Dashboard :=
  simpleDashboard ("T") 1 [validPanel]
    [⟨"", "query", "", "", 0⟩, ⟨"", "query", "", "", 0⟩]

def dashMetaA : Dashboard := { dashValid with id := some 3 }

def dashMetaB : Dashboard := { dashValid with id := some 4 }

/-! Section: No error in the loops carries the field path `title` -/

lemma countTitle_targetLoop (i : Nat) : ∀ (ts : List Target) (j : Nat),
    (targetLoop i ts j).countP isTitleField = 0 := by
  intro ts
  induction ts with
  | nil => intro j; rfl
  | cons t rest ih =>
    intro j
    unfold targetLoop
    rw [List.countP_append, ih]
    by_cases h : t.refId = "" <;> simp [h]

lemma countTitle_panelLoop : ∀ (l : List Panel) (i : Nat) (seen : List Int),
    (panelLoop l i seen).countP isTitleField = 0 := by
  intro l
  induction l with
  | nil => intro i seen; rfl
  | cons p rest ih =>
    intro i seen
    unfold panelLoop
    simp only [List.countP_append]
    rw [countTitle_targetLoop, ih]
    split <;> split <;> split <;> split <;> simp

lemma countTitle_varLoop : ∀ (l : List TemplateVariable) (i : Nat) (seen : List String),
    (varLoop l i seen).countP isTitleField = 0 := by
  intro l
  induction l with
  | nil => intro i seen; rfl
  | cons v rest ih =>
    intro i seen
    unfold varLoop
    simp only [List.countP_append]
    rw [ih]
    split <;> split <;> split <;> simp

/-- C4: a dashboard with an empty title gets exactly one error whose
field path is `title`, whatever else is wrong or right. -/
theorem C4_missing_title_single_error (d : Dashboard) (h : d.title = "") :
    (collectErrors d).countP isTitleField = 1 := by
  unfold collectErrors
  simp only [List.countP_append]
  rw [if_pos h, countTitle_panelLoop, countTitle_varLoop]
  split <;> split <;> simp

/-- Witness for C4 at a concrete dashboard. -/
theorem C4_missing_title_single_error_witness :
    (collectErrors dashNoTitle).countP isTitleField = 1 :=
  C4_missing_title_single_error dashNoTitle rfl

/-! Section: C7: grid-size errors -/

/-- Stated from the claim: one combined grid-size error (never one per
axis) for each panel, at its index, whose width or height is not
strictly positive. -/
def specGridErrors : List Panel → Nat → List ValidationError
  | [], _ => []
  | p :: rest, i =>
    (if p.gridPos.w ≤ 0 ∨ p.gridPos.h ≤ 0 then
      [⟨"panels[" ++ (toString i ++ "].gridPos"),
        "panel width and height must be positive"⟩]
    else [])
    ++ specGridErrors rest (i + 1)

lemma filter_grid_targetLoop (i : Nat) : ∀ (ts : List Target) (j : Nat),
    (targetLoop i ts j).filter isGridSizeMsg = [] := by
  intro ts
  induction ts with
  | nil => intro j; rfl
  | cons t rest ih =>
    intro j
    unfold targetLoop
    rw [List.filter_append, ih]
    by_cases h : t.refId = "" <;> simp [h]

lemma filter_grid_varLoop : ∀ (l : List TemplateVariable) (i : Nat) (seen : List String),
    (varLoop l i seen).filter isGridSizeMsg = [] := by
  intro l
  induction l with
  | nil => intro i seen; rfl
  | cons v rest ih =>
    intro i seen
    unfold varLoop
    simp only [List.filter_append]
    rw [ih]
    split <;> split <;> split <;> simp

lemma filter_grid_panelLoop : ∀ (l : List Panel) (i : Nat) (seen : List Int),
    (panelLoop l i seen).filter isGridSizeMsg = specGridErrors l i := by
  intro l
  induction l with
  | nil => intro i seen; rfl
  | cons p rest ih =>
    intro i seen
    unfold panelLoop specGridErrors
    simp only [List.filter_append]
    rw [filter_grid_targetLoop, ih]
    split <;> split <;> split <;> split <;> simp

/-- C7: the grid-size errors reported by the validator are exactly one
combined error per panel with non-positive width or height, indexed by
that panel's position, and none for panels with both dimensions
positive. -/
theorem C7_grid_size_errors (d : Dashboard) :
    (collectErrors d).filter isGridSizeMsg = specGridErrors d.panels 0 := by
  unfold collectErrors
  simp only [List.filter_append]
  rw [filter_grid_panelLoop, filter_grid_varLoop]
  split <;> split <;> split <;> simp

/-- Witness for C7 at a concrete dashboard with one bad panel. -/
theorem C7_grid_size_errors_witness :
    (collectErrors (simpleDashboard ("T") 1
        [⟨1, "p", "text", [], ⟨0, 12, 0, 0⟩, emptyFieldConfig⟩] [])).filter
      isGridSizeMsg =
    [⟨"panels[0].gridPos", "panel width and height must be positive"⟩] := by
  rw [C7_grid_size_errors]
  decide

/-! Section: C2: duplicate-panel-id errors -/

/-- Stated from the claim: walking the panels in order with the list of
earlier panel ids, a panel is flagged exactly when its id already
occurred earlier; the flag records the panel's index and its id. -/
def laterOccurrenceFlags : List Panel → Nat → List Int → List (Nat × Int)
  | [], _, _ => []
  | p :: rest, i, earlier =>
    (if p.id ∈ earlier then [(i, p.id)] else [])
    ++ laterOccurrenceFlags rest (i + 1) (earlier ++ [p.id])

/-- The duplicate-id error the validator emits for a flagged panel. -/
def dupPanelError (x : Nat × Int) : ValidationError :=
  ⟨"panels[" ++ (toString x.1 ++ "].id"), "duplicate panel ID: " ++ toString x.2⟩

lemma filter_dup_targetLoop (i : Nat) : ∀ (ts : List Target) (j : Nat),
    (targetLoop i ts j).filter isDupPanelMsg = [] := by
  intro ts
  induction ts with
  | nil => intro j; rfl
  | cons t rest ih =>
    intro j
    unfold targetLoop
    rw [List.filter_append, ih]
    by_cases h : t.refId = "" <;> simp [h]

lemma filter_dup_varLoop : ∀ (l : List TemplateVariable) (i : Nat) (seen : List String),
    (varLoop l i seen).filter isDupPanelMsg = [] := by
  intro l
  induction l with
  | nil => intro i seen; rfl
  | cons v rest ih =>
    intro i seen
    unfold varLoop
    simp only [List.filter_append]
    rw [ih]
    split <;> split <;> split <;> simp

lemma filter_dup_panelLoop : ∀ (l : List Panel) (i : Nat) (seen earlier : List Int),
    (∀ x : Int, x ∈ seen ↔ x ∈ earlier) →
    (panelLoop l i seen).filter isDupPanelMsg =
      (laterOccurrenceFlags l i earlier).map dupPanelError := by
  intro l
  induction l with
  | nil => intro i seen earlier _; rfl
  | cons p rest ih =>
    intro i seen earlier hiff
    unfold panelLoop laterOccurrenceFlags
    simp only [List.filter_append, List.map_append]
    rw [filter_dup_targetLoop]
    rw [ih (i + 1) (p.id :: seen) (earlier ++ [p.id]) (by
      intro x
      simp only [List.mem_cons, List.mem_append, List.mem_singleton, hiff x]
      tauto)]
    by_cases hd : p.id ∈ earlier
    · rw [if_pos ((hiff p.id).2 hd), if_pos hd]
      split <;> split <;> split <;> simp [dupPanelError]
    · rw [if_neg (fun hs => hd ((hiff p.id).1 hs)), if_neg hd]
      split <;> split <;> split <;> simp [dupPanelError]

/-- Number of panels in `l` whose id is `k`. -/
def idOccurrences (l : List Panel) (k : Int) : Nat :=
  (l.filter (fun p => decide (p.id = k))).length

lemma countFlags_laterOccurrenceFlags (k : Int) :
    ∀ (l : List Panel) (i : Nat) (earlier : List Int),
    (laterOccurrenceFlags l i earlier).countP (fun x => decide (x.2 = k)) =
      if k ∈ earlier then idOccurrences l k else idOccurrences l k - 1 := by
  intro l
  induction l with
  | nil =>
    intro i earlier
    simp [laterOccurrenceFlags, idOccurrences]
  | cons p rest ih =>
    intro i earlier
    unfold laterOccurrenceFlags
    simp only [List.countP_append]
    rw [ih (i + 1) (earlier ++ [p.id])]
    have hp2 : (k = p.id) = (p.id = k) := propext ⟨fun h => h.symm, fun h => h.symm⟩
    by_cases hp : p.id = k <;> by_cases he : k ∈ earlier <;>
      simp [idOccurrences, List.filter_cons, List.countP_cons, hp2, hp, he] <;>
      omega

/-- C2: the duplicate-id errors in the validator's output are exactly
one error per later occurrence of an already-seen panel id, in order,
each carrying that panel's index in its field path (so the first
occurrence is never flagged); and for every id `k` the number of
flagged occurrences is the number of panels with id `k` minus one. -/
theorem C2_duplicate_id_errors (d : Dashboard) :
    (collectErrors d).filter isDupPanelMsg =
      (laterOccurrenceFlags d.panels 0 []).map dupPanelError ∧
    ∀ k : Int,
      (laterOccurrenceFlags d.panels 0 []).countP (fun x => decide (x.2 = k)) =
        idOccurrences d.panels k - 1 := by
  constructor
  · unfold collectErrors
    simp only [List.filter_append]
    rw [filter_dup_panelLoop d.panels 0 [] [] (by simp), filter_dup_varLoop]
    split <;> split <;> split <;> simp
  · intro k
    rw [countFlags_laterOccurrenceFlags]
    simp

/-! Section: C3, C5, C6, C9 -/

/-- C3: a panel needs targets exactly when its type is in the closed,
case-sensitive nine-element set; concretely a `timeseries` panel with
no targets draws one missing-targets error while `Table` and `text`
panels with no targets draw none. -/
theorem C3_query_panel_allow_list :
    (∀ s : String, isQueryPanel s = true ↔
      (s = "timeseries" ∨ s = "stat" ∨ s = "gauge" ∨ s = "bargauge" ∨
       s = "table" ∨ s = "heatmap" ∨ s = "piechart" ∨ s = "graph" ∨
       s = "singlestat")) ∧
    isQueryPanel ("Table") = false ∧
    (collectErrors dashTsNoTargets).countP isTargetsMissingMsg = 1 ∧
    (collectErrors dashTableCapNoTargets).countP isTargetsMissingMsg = 0 ∧
    (collectErrors dashTextNoTargets).countP isTargetsMissingMsg = 0 := by
  refine ⟨fun s => ?_, by decide, by decide, by decide, by decide⟩
  simp only [isQueryPanel, Bool.or_eq_true, decide_eq_true_eq]
  tauto

/-- C5: validation succeeds exactly when the collected error list is
empty, and otherwise returns the single combined message built from
the fixed prefix and the `field: message` renderings joined by `; `. -/
theorem C5_error_aggregation (d : Dashboard) :
    (ValidateDashboard d = none ↔ collectErrors d = []) ∧
    (collectErrors d ≠ [] →
      ValidateDashboard d =
        some ("validation failed: " ++ String.intercalate ("; ")
          ((collectErrors d).map (fun e => e.field ++ (": " ++ e.message))))) := by
  unfold ValidateDashboard
  cases h : collectErrors d with
  | nil => simp [h]
  | cons e rest =>
    simp only [h]
    refine ⟨by simp, fun _ => ?_⟩
    rw [if_pos (by simp : (e :: rest).length > 0)]
    exact congrArg some (congrArg _ (congrArg _ rfl))

/-- Witness for C5 at a concrete failing dashboard. -/
theorem C5_error_aggregation_witness :
    ValidateDashboard dashVarTypeMissing =
      some ("validation failed: templating.list[0].type: variable type is required") :=
  (C5_error_aggregation dashVarTypeMissing).2 (by decide)

/-- C6: validation is a pure function of the dashboard value — equal
inputs give byte-identical error lists and results. -/
theorem C6_deterministic (d₁ d₂ : Dashboard) (h : d₁ = d₂) :
    collectErrors d₁ = collectErrors d₂ ∧
    ValidateDashboard d₁ = ValidateDashboard d₂ := by
  rw [h]
  exact ⟨rfl, rfl⟩

/-- Witness for C6 at a concrete dashboard. -/
theorem C6_deterministic_witness :
    collectErrors dashValid = collectErrors dashValid ∧
    ValidateDashboard dashValid = ValidateDashboard dashValid :=
  C6_deterministic dashValid dashValid rfl

/-- C9: the substitution utility rewrites both placeholder syntaxes —
for a single-entry mapping it is exactly the `${NAME}` replacement
followed by the bare `$NAME` replacement — and on the concrete input
of the claim it produces `ns: prod, alt: prod`. -/
theorem C9_template_substitution :
    ProcessTemplateVariables ("ns: $\x7bNAMESPACE\x7d, alt: $NAMESPACE")
        [("NAMESPACE", "prod")] = "ns: prod, alt: prod" ∧
    ∀ (c v r : String),
      ProcessTemplateVariables c [(v, r)] =
        stringReplaceAll (stringReplaceAll c ("$\x7b" ++ (v ++ "\x7d")) r)
          ("$" ++ v) r := by
  exact ⟨by decide, fun c v r => rfl⟩

/-! Section: C1: when does validation succeed -/

/-- The hypothesis of claim C1 exactly as stated: non-empty title,
non-zero schema version, at least one panel, each panel with positive
grid width and height and a non-empty type, targets (with non-empty
refIds) required only of query-type panels, and no duplicate panel ids
or template-variable names. -/
def ClaimC1Hypothesis (d : Dashboard) : Prop :=
  d.title ≠ "" ∧ d.schemaVersion ≠ 0 ∧ d.panels ≠ [] ∧
  (∀ p ∈ d.panels, 0 < p.gridPos.w ∧ 0 < p.gridPos.h ∧ p.type ≠ "" ∧
    (isQueryPanel p.type = true →
      p.targets ≠ [] ∧ ∀ t ∈ p.targets, t.refId ≠ "")) ∧
  (d.panels.map Panel.id).Nodup ∧
  (d.templating.list.map TemplateVariable.name).Nodup

/-- Counterexample to C1 as stated: `dashVarTypeMissing` meets every
hypothesis of the claim, yet validation fails (its template variable
has an empty type). -/
theorem C1_counterexample :
    ClaimC1Hypothesis dashVarTypeMissing ∧
    ValidateDashboard dashVarTypeMissing ≠ none := by
  constructor
  · refine ⟨by decide, by decide, by decide, ?_, by decide, by decide⟩
    decide
  · decide

lemma targetLoop_nil (i : Nat) : ∀ (ts : List Target) (j : Nat),
    (∀ t ∈ ts, t.refId ≠ "") → targetLoop i ts j = [] := by
  intro ts
  induction ts with
  | nil => intro j _; rfl
  | cons t rest ih =>
    intro j h
    unfold targetLoop
    rw [if_neg (h t (List.mem_cons_self t rest)), ih (j + 1) (fun u hu => h u (List.mem_cons_of_mem t hu))]
    rfl

lemma panelLoop_nil : ∀ (l : List Panel) (i : Nat) (seen : List Int),
    (∀ p ∈ l, 0 < p.gridPos.w ∧ 0 < p.gridPos.h ∧ p.type ≠ "" ∧
      (isQueryPanel p.type = true → p.targets ≠ []) ∧
      (∀ t ∈ p.targets, t.refId ≠ "")) →
    (l.map Panel.id).Nodup →
    (∀ p ∈ l, p.id ∉ seen) →
    panelLoop l i seen = [] := by
  intro l
  induction l with
  | nil => intro i seen _ _ _; rfl
  | cons p rest ih =>
    intro i seen hall hnd hseen
    obtain ⟨hw, hh, htype, hquery, hrefs⟩ := hall p (List.mem_cons_self p rest)
    unfold panelLoop
    rw [if_neg (hseen p (List.mem_cons_self p rest))]
    rw [if_neg htype]
    rw [if_neg (by
      push_neg
      exact ⟨by omega, by omega⟩)]
    rw [if_neg (by
      intro hc
      exact hquery hc.1 hc.2)]
    rw [targetLoop_nil i p.targets 0 hrefs]
    rw [ih (i + 1) (p.id :: seen)
      (fun q hq => hall q (List.mem_cons_of_mem p hq))
      ((List.nodup_cons.1 (by simpa using hnd)).2)
      (by
        intro q hq
        simp only [List.mem_cons]
        push_neg
        constructor
        · intro hqp
          exact (List.nodup_cons.1 (by simpa using hnd)).1
            (hqp ▸ List.mem_map_of_mem Panel.id hq)
        · exact hseen q (List.mem_cons_of_mem p hq))]
    rfl

lemma varLoop_nil : ∀ (l : List TemplateVariable) (i : Nat) (seen : List String),
    (∀ v ∈ l, v.name ≠ "" ∧ v.type ≠ "") →
    (l.map TemplateVariable.name).Nodup →
    (∀ v ∈ l, v.name ∉ seen) →
    varLoop l i seen = [] := by
  intro l
  induction l with
  | nil => intro i seen _ _ _; rfl
  | cons v rest ih =>
    intro i seen hall hnd hseen
    obtain ⟨hname, htype⟩ := hall v (List.mem_cons_self v rest)
    unfold varLoop
    rw [if_neg hname]
    rw [if_neg (hseen v (List.mem_cons_self v rest))]
    rw [if_neg htype]
    rw [ih (i + 1) (v.name :: seen)
      (fun u hu => hall u (List.mem_cons_of_mem v hu))
      ((List.nodup_cons.1 (by simpa using hnd)).2)
      (by
        intro u hu
        simp only [List.mem_cons]
        push_neg
        constructor
        · intro huv
          have : v.name ∈ rest.map TemplateVariable.name :=
            huv ▸ List.mem_map_of_mem TemplateVariable.name hu
          exact (List.nodup_cons.1 (by simpa using hnd)).1 this
        · exact hseen u (List.mem_cons_of_mem v hu))]
    rfl

/-- C1 amended: validation succeeds when, in addition to the claim's
hypotheses, every target of every panel (query-type or not) has a
non-empty refId and every template variable has a non-empty name and a
non-empty type. -/
theorem C1_amended_validation_succeeds (d : Dashboard)
    (htitle : d.title ≠ "") (hschema : d.schemaVersion ≠ 0)
    (hpanels : d.panels ≠ [])
    (hpanel : ∀ p ∈ d.panels, 0 < p.gridPos.w ∧ 0 < p.gridPos.h ∧
      p.type ≠ "" ∧ (isQueryPanel p.type = true → p.targets ≠ []))
    (hrefs : ∀ p ∈ d.panels, ∀ t ∈ p.targets, t.refId ≠ "")
    (hids : (d.panels.map Panel.id).Nodup)
    (hvars : ∀ v ∈ d.templating.list, v.name ≠ "" ∧ v.type ≠ "")
    (hnames : (d.templating.list.map TemplateVariable.name).Nodup) :
    ValidateDashboard d = none := by
  have hcoll : collectErrors d = [] := by
    unfold collectErrors
    rw [if_neg htitle, if_neg hschema,
      if_neg (by simpa using hpanels)]
    rw [panelLoop_nil d.panels 0 []
      (fun p hp => ⟨(hpanel p hp).1, (hpanel p hp).2.1, (hpanel p hp).2.2.1,
        (hpanel p hp).2.2.2, hrefs p hp⟩)
      hids (fun p _ => List.not_mem_nil p.id)]
    rw [varLoop_nil d.templating.list 0 [] hvars hnames
      (fun v _ => List.not_mem_nil v.name)]
    rfl
  unfold ValidateDashboard
  rw [hcoll]
  rfl

/-- Witness for the amended C1 at a concrete fully-valid dashboard. -/
theorem C1_amended_validation_succeeds_witness :
    ValidateDashboard dashValid = none :=
  C1_amended_validation_succeeds dashValid (by decide) (by decide) (by decide)
    (by decide) (by decide) (by decide) (by decide) (by decide)

/-! Section: C10: empty names participate in duplicate tracking -/

lemma varLoop_mem_empty (l : List TemplateVariable) :
    ∀ (i : Nat) (seen : List String), "" ∈ seen →
    ∀ (k : Nat) (hk : k < l.length), (l.get ⟨k, hk⟩).name = "" →
    (⟨"templating.list[" ++ (toString (i + k) ++ "].name"),
      "variable name is required"⟩ : ValidationError) ∈ varLoop l i seen ∧
    (⟨"templating.list[" ++ (toString (i + k) ++ "].name"),
      "duplicate variable name: "⟩ : ValidationError) ∈ varLoop l i seen := by
  induction l with
  | nil =>
    intro i seen _ k hk
    exact absurd hk (Nat.not_lt_zero k)
  | cons v rest ih =>
    intro i seen hs k hk hname
    cases k with
    | zero =>
      have hv : v.name = "" := hname
      unfold varLoop
      constructor
      · refine List.mem_append.2 (Or.inl (List.mem_append.2 (Or.inl
          (List.mem_append.2 (Or.inl ?_)))))
        rw [if_pos hv]
        exact List.mem_singleton.2 rfl
      · refine List.mem_append.2 (Or.inl (List.mem_append.2 (Or.inl
          (List.mem_append.2 (Or.inr ?_)))))
        rw [if_pos (hv ▸ hs)]
        rw [hv, String.append_empty]
        exact List.mem_singleton.2 rfl
    | succ k' =>
      have harith : i + (k' + 1) = (i + 1) + k' := by omega
      have hmem := ih (i + 1) (v.name :: seen) (List.mem_cons_of_mem v.name hs)
        k' (by simpa using Nat.lt_of_succ_lt_succ hk) hname
      rw [harith]
      unfold varLoop
      exact ⟨List.mem_append.2 (Or.inr hmem.1), List.mem_append.2 (Or.inr hmem.2)⟩

lemma varLoop_mem_two_empty (l : List TemplateVariable) :
    ∀ (i : Nat) (seen : List String) (j k : Nat) (hjk : j < k)
      (hk : k < l.length),
    (l.get ⟨j, Nat.lt_trans hjk hk⟩).name = "" →
    (l.get ⟨k, hk⟩).name = "" →
    (⟨"templating.list[" ++ (toString (i + k) ++ "].name"),
      "variable name is required"⟩ : ValidationError) ∈ varLoop l i seen ∧
    (⟨"templating.list[" ++ (toString (i + k) ++ "].name"),
      "duplicate variable name: "⟩ : ValidationError) ∈ varLoop l i seen := by
  induction l with
  | nil =>
    intro i seen j k hjk hk
    exact absurd hk (Nat.not_lt_zero k)
  | cons v rest ih =>
    intro i seen j k hjk hk hj hkname
    cases j with
    | zero =>
      have hv : v.name = "" := hj
      cases k with
      | zero => exact absurd hjk (Nat.lt_irrefl 0)
      | succ k' =>
        have harith : i + (k' + 1) = (i + 1) + k' := by omega
        have hmem := varLoop_mem_empty rest (i + 1) (v.name :: seen)
          (hv ▸ List.mem_cons_self v.name seen) k'
          (by simpa using Nat.lt_of_succ_lt_succ hk) hkname
        rw [harith]
        unfold varLoop
        exact ⟨List.mem_append.2 (Or.inr hmem.1), List.mem_append.2 (Or.inr hmem.2)⟩
    | succ j' =>
      cases k with
      | zero => exact absurd hjk (Nat.not_lt_zero _)
      | succ k' =>
        have harith : i + (k' + 1) = (i + 1) + k' := by omega
        have hmem := ih (i + 1) (v.name :: seen) j' k'
          (Nat.lt_of_succ_lt_succ hjk)
          (by simpa using Nat.lt_of_succ_lt_succ hk) hj hkname
        rw [harith]
        unfold varLoop
        exact ⟨List.mem_append.2 (Or.inr hmem.1), List.mem_append.2 (Or.inr hmem.2)⟩

/-- C10: if two template variables at positions `j < k` both have the
empty name, the later one receives both a missing-name error and a
duplicate-name error (the empty name is added to the seen set even
though it was flagged as missing). -/
theorem C10_empty_name_duplicate_tracking (d : Dashboard) (j k : Nat)
    (hjk : j < k) (hk : k < d.templating.list.length)
    (hj : (d.templating.list.get ⟨j, Nat.lt_trans hjk hk⟩).name = "")
    (hkname : (d.templating.list.get ⟨k, hk⟩).name = "") :
    (⟨"templating.list[" ++ (toString k ++ "].name"),
      "variable name is required"⟩ : ValidationError) ∈ collectErrors d ∧
    (⟨"templating.list[" ++ (toString k ++ "].name"),
      "duplicate variable name: "⟩ : ValidationError) ∈ collectErrors d := by
  have hmem := varLoop_mem_two_empty d.templating.list 0 [] j k hjk hk hj hkname
  rw [Nat.zero_add] at hmem
  unfold collectErrors
  exact ⟨List.mem_append.2 (Or.inr hmem.1), List.mem_append.2 (Or.inr hmem.2)⟩

/-- Witness for C10 at a dashboard with two empty-named variables. -/
theorem C10_empty_name_duplicate_tracking_witness :
    (⟨"templating.list[1].name", "variable name is required"⟩ : ValidationError)
        ∈ collectErrors dashTwoEmptyNames ∧
    (⟨"templating.list[1].name", "duplicate variable name: "⟩ : ValidationError)
        ∈ collectErrors dashTwoEmptyNames :=
  C10_empty_name_duplicate_tracking dashTwoEmptyNames 0 1 (by decide)
    (by decide) (by decide) (by decide)

/-! Section: C8: metadata projection -/

/-- Counterexample to C8 as stated: two dashboards that differ only in
their `id` field have identical metadata, so the projection does not
return the dashboard's id (it returns the `uid` field instead). -/
theorem C8_counterexample :
    GetDashboardMetadata dashMetaA = GetDashboardMetadata dashMetaB ∧
    dashMetaA.id ≠ dashMetaB.id := by
  constructor
  · decide
  · decide

/-- C8 amended: the metadata projection returns exactly the title,
description, uid (not the id), tag list, panel count, schema version
and templating-presence flag of the dashboard, and is fully determined
by those seven facts (hence independent of validation). -/
theorem C8_amended_metadata (d : Dashboard) :
    (GetDashboardMetadata d).title = d.title ∧
    (GetDashboardMetadata d).description = d.description ∧
    (GetDashboardMetadata d).uid = d.uid ∧
    (GetDashboardMetadata d).tags = d.tags ∧
    (GetDashboardMetadata d).panelsCount = d.panels.length ∧
    (GetDashboardMetadata d).schemaVersion = d.schemaVersion ∧
    ((GetDashboardMetadata d).hasTemplating = true ↔ d.templating.list ≠ []) ∧
    ∀ d' : Dashboard, d'.title = d.title → d'.description = d.description →
      d'.uid = d.uid → d'.tags = d.tags →
      d'.panels.length = d.panels.length →
      d'.schemaVersion = d.schemaVersion →
      (d'.templating.list = [] ↔ d.templating.list = []) →
      GetDashboardMetadata d' = GetDashboardMetadata d := by
  refine ⟨rfl, rfl, rfl, rfl, rfl, rfl, ?_, ?_⟩
  · simp [GetDashboardMetadata, List.length_pos]
  · intro d' h1 h2 h3 h4 h5 h6 h7
    have hlen : (0 < d'.templating.list.length) = (0 < d.templating.list.length) := by
      apply propext
      rw [List.length_pos, List.length_pos]
      exact not_congr h7
    simp [GetDashboardMetadata, h1, h2, h3, h4, h5, h6, hlen]

/-- Witness for the amended C8 at a concrete dashboard. -/
theorem C8_amended_metadata_witness :
    (GetDashboardMetadata dashValid).uid = dashValid.uid ∧
    ((GetDashboardMetadata dashValid).hasTemplating = true ↔
      dashValid.templating.list ≠ []) :=
  ⟨(C8_amended_metadata dashValid).2.2.1,
   (C8_amended_metadata dashValid).2.2.2.2.2.2.1⟩
